import Mathlib

/-!
Shallow embedding of the zone-classification logic of the Geology-tools
repository (file `src/algorithms/ls4sm_algorithm.py`, the lateral-spreading
workflow), together with models of the pipeline's cancellation and error
handling control flow, and proofs of the specification's claims about them.

Numeric inputs (liquefaction index, slope percentage) are embedded as
rationals; the rule-table bounds in the source are integer literals.
-/

/-- Embedding of the Python enum `ZoneType` (`ls4sm_algorithm.py`):
`LOW_SUSCEPTIBILITY = "Z0"`, `SUSCEPTIBILITY = "SZ"`, `RESPECT = "RZ"`. -/
inductive ZoneType where
  | LOW_SUSCEPTIBILITY
  | SUSCEPTIBILITY
  | RESPECT
deriving DecidableEq

/-- The string value carried by each `ZoneType` member in the source. -/
def ZoneType.value : ZoneType → String
  | .LOW_SUSCEPTIBILITY => "Z0"
  | .SUSCEPTIBILITY => "SZ"
  | .RESPECT => "RZ"

/-- Embedding of the Python dataclass `ZoneClassification`
(`ls4sm_algorithm.py`): a zone classification criterion with a numeric
code, a zone type, optional bounds for the liquefaction index range and
the slope range (None = absent = unbounded), and a formula string. -/
structure ZoneClassification where
  code : ℤ
  zone_type : ZoneType
  il_min : Option ℚ
  il_max : Option ℚ
  slope_min : Option ℚ
  slope_max : Option ℚ
  formula_text : String
deriving DecidableEq

/-- `LateralSpreadingAlgorithm.FIELD_INDEX` in the source. -/
def FIELD_INDEX : String := "INDEX"

/-- `LateralSpreadingAlgorithm.FIELD_DN` in the source (slope field). -/
def FIELD_DN : String := "DN"

/-- Embedding of `LateralSpreadingAlgorithm.ZONE_CRITERIA`
(`ls4sm_algorithm.py` lines 145-162): the shipped rule table. -/
def ZONE_CRITERIA : List ZoneClassification :=
  [⟨101, .RESPECT, some 0, some 2, some 15, none, "RZ=(0<IL≤2) and (slope>15)"⟩,
   ⟨102, .RESPECT, some 2, some 5, some 5, none, "RZ=(2<IL≤5) and (slope>5)"⟩,
   ⟨103, .RESPECT, some 5, some 15, some 5, none, "RZ=(5<IL≤15) and (slope>5)"⟩,
   ⟨104, .RESPECT, some 15, none, some 2, none, "RZ=(IL>15) and (slope>2)"⟩,
   ⟨201, .SUSCEPTIBILITY, some 0, some 2, some 5, some 15, "SZ=(0<IL≤2) and (5<slope≤15)"⟩,
   ⟨202, .SUSCEPTIBILITY, some 2, some 5, some 2, some 5, "SZ=(2<IL≤5) and (2<slope≤5)"⟩,
   ⟨203, .SUSCEPTIBILITY, some 5, some 15, some 2, some 5, "SZ=(5<IL≤15) and (2<slope≤5)"⟩,
   ⟨300, .LOW_SUSCEPTIBILITY, some 0, some 2, some 2, some 5, "Z0=(0<IL≤2) and (2<slope≤5)"⟩]

/-- Embedding of `LateralSpreadingAlgorithm._build_range_condition`
(`ls4sm_algorithm.py` lines 689-712): the SQL condition string generated
for a field and an optional pair of bounds.  Both bounds absent yields the
empty string, exactly as in the source. -/
def build_range_condition (field_name : String) (min_val max_val : Option ℚ) : String :=
  match min_val, max_val with
  | some mn, some mx =>
      "(\"" ++ field_name ++ "\" > " ++ toString mn ++ " AND \"" ++ field_name
        ++ "\" <= " ++ toString mx ++ ")"
  | some mn, none => "\"" ++ field_name ++ "\" > " ++ toString mn
  | none, some mx => "\"" ++ field_name ++ "\" <= " ++ toString mx
  | none, none => ""

/-- Embedding of `LateralSpreadingAlgorithm._build_extraction_expression`
(`ls4sm_algorithm.py` lines 654-687): builds the per-rule SQL WHERE
expression; empty sub-conditions are dropped, and if no condition remains
the expression `1=1` is returned. -/
def build_extraction_expression (z : ZoneClassification) : String :=
  let il_cond := build_range_condition FIELD_INDEX z.il_min z.il_max
  let slope_cond := build_range_condition FIELD_DN z.slope_min z.slope_max
  let conditions :=
    (if il_cond = "" then [] else [il_cond])
      ++ (if slope_cond = "" then [] else [slope_cond])
  let sep := " AND "
  if conditions = [] then "1=1" else sep.intercalate conditions

/-- Semantics, at one feature's field value `v`, of the condition string
produced by `build_range_condition` for the given bounds: with both bounds
present the condition is `v > mn AND v <= mx`; with only one bound present
the single comparison; with both absent the condition is dropped by
`build_extraction_expression`, hence imposes no constraint (true). -/
def condMatches (min_val max_val : Option ℚ) (v : ℚ) : Bool :=
  match min_val, max_val with
  | some mn, some mx => decide (mn < v) && decide (v ≤ mx)
  | some mn, none => decide (mn < v)
  | none, some mx => decide (v ≤ mx)
  | none, none => true

/-- Semantics of the whole extraction expression of one rule at a feature
whose (renamed) `INDEX` field holds `index` and whose `DN` field holds
`slope`: the conjunction of the two range conditions. -/
def zoneMatches (z : ZoneClassification) (index slope : ℚ) : Bool :=
  condMatches z.il_min z.il_max index && condMatches z.slope_min z.slope_max slope

/-- The classifier of the spec's §4.1, embedded from the zone loop of
`LateralSpreadingAlgorithm.processAlgorithm` (lines 350-381): every rule of
the table is processed independently, in table order, and a feature ends up
in the output of every rule whose extraction expression it satisfies.  Per
feature this is exactly the sub-list of matching rules, in table order. -/
def classify (rules : List ZoneClassification) (index slope : ℚ) :
    List ZoneClassification :=
  rules.filter (fun z => zoneMatches z index slope)

/-- The spec's wording of index membership, stated verbatim for the
refinement claim: `index_min` absent or `index > index_min`, and
`index_max` absent or `index ≤ index_max`. -/
def spec_index_membership (z : ZoneClassification) (index : ℚ) : Prop :=
  (z.il_min = none ∨ ∃ m, z.il_min = some m ∧ m < index) ∧
  (z.il_max = none ∨ ∃ m, z.il_max = some m ∧ index ≤ m)

/-- The spec's wording of slope membership, analogous to
`spec_index_membership` with the slope bounds. -/
def spec_slope_membership (z : ZoneClassification) (slope : ℚ) : Prop :=
  (z.slope_min = none ∨ ∃ m, z.slope_min = some m ∧ m < slope) ∧
  (z.slope_max = none ∨ ∃ m, z.slope_max = some m ∧ slope ≤ m)

/-- `condMatches` agrees with the spec's "(bound absent or comparison)"
wording. -/
lemma condMatches_iff (mn mx : Option ℚ) (v : ℚ) :
    condMatches mn mx v = true ↔
      ((mn = none ∨ ∃ m, mn = some m ∧ m < v) ∧
       (mx = none ∨ ∃ m, mx = some m ∧ v ≤ m)) := by
  cases mn <;> cases mx <;> simp [condMatches]

/-- A filter by a predicate that holds on at most one of any two list
entries keeps at most one entry. -/
lemma filter_length_le_one {α : Type} {p : α → Bool} :
    ∀ {l : List α}, l.Pairwise (fun a b => ¬(p a = true ∧ p b = true)) →
      (l.filter p).length ≤ 1 := by
  intro l
  induction l with
  | nil => intro _; simp
  | cons a t ih =>
    intro h
    rw [List.pairwise_cons] at h
    by_cases hpa : p a = true
    · have ht : t.filter p = [] := by
        rw [List.filter_eq_nil_iff]
        intro b hb hpb
        exact h.1 b hb ⟨hpa, hpb⟩
      simp [List.filter_cons, hpa, ht]
    · simp only [List.filter_cons, if_neg hpa]
      exact ih h.2

/-!
Model for the behaviour of the generated comparisons at non-finite field
values.  The repository builds SQL comparison strings and delegates their
evaluation to the host expression engine, which is outside `src/`.
-/

/-- Modelled from the spec: the value domain the host expression engine
compares — a finite number, `+infinity`, `-infinity`, or NaN — since the
evaluation of the generated comparisons at non-finite operands happens in
the delegated host engine, not in this repository's code. -/
inductive EVal where
  | fin (q : ℚ)
  | posInf
  | negInf
  | nan
deriving DecidableEq

/-- Modelled from the spec: standard strict less-than on the extended
domain — NaN is incomparable (every comparison false), the infinities are
extreme ordered values. -/
def elt : EVal → EVal → Bool
  | .fin a, .fin b => decide (a < b)
  | .fin _, .posInf => true
  | .negInf, .fin _ => true
  | .negInf, .posInf => true
  | _, _ => false

/-- Modelled from the spec: standard less-or-equal on the extended domain —
NaN is incomparable, the infinities are extreme ordered values. -/
def ele : EVal → EVal → Bool
  | .fin a, .fin b => decide (a ≤ b)
  | .fin _, .posInf => true
  | .negInf, _ => true
  | .posInf, .posInf => true
  | _, _ => false

/-- The range condition of `build_range_condition`, evaluated on the
extended domain with the standard comparison semantics. -/
def condMatchesE (min_val max_val : Option ℚ) (v : EVal) : Bool :=
  match min_val, max_val with
  | some mn, some mx => elt (.fin mn) v && ele v (.fin mx)
  | some mn, none => elt (.fin mn) v
  | none, some mx => ele v (.fin mx)
  | none, none => true

/-- One rule's extraction expression evaluated on the extended domain. -/
def zoneMatchesE (z : ZoneClassification) (index slope : EVal) : Bool :=
  condMatchesE z.il_min z.il_max index && condMatchesE z.slope_min z.slope_max slope

/-- The classifier on the extended domain. -/
def classifyE (rules : List ZoneClassification) (index slope : EVal) :
    List ZoneClassification :=
  rules.filter (fun z => zoneMatchesE z index slope)

/-!
Control-flow model of cooperative cancellation.  Both `processAlgorithm`
methods run delegated host operations strictly in sequence and test
`feedback.isCanceled()` at fixed stage boundaries, returning the empty
result mapping `{}` when the flag is observed set.  The model numbers the
stages in execution order and reads the flag's successive observations
from a function `c : ℕ → Bool` (`c n` is the value seen by the `n`-th
executed check); a run returns the list of stages executed and a Bool
that is `true` exactly when the method returned the empty mapping `{}`.
-/

/-- Stage/check model of `LateralSpreadingAlgorithm.processAlgorithm`
(`ls4sm_algorithm.py` lines 237-429), restricted to cancellation flow:
stages `1` clip, `2` slope, `3` style-slope (only when styles are
applied), `4` polygonize, `5` intersect, `6` rename, `7`-`14` the eight
zone classifications (the loop over `ZONE_CRITERIA`, unrolled since the
shipped table has exactly eight entries), `15` merge, `16` reorganize,
`17` style-zones.  Checks `0`-`3` follow stages 1, 2, 4 and 6; checks
`4`-`11` follow each zone.  Result: stages executed, and whether the
empty mapping `{}` was returned. -/
def lsCancelRun (applyStyles : Bool) (c : ℕ → Bool) : List ℕ × Bool :=
  let st3 : List ℕ := if applyStyles then [3] else []
  let st17 : List ℕ := if applyStyles then [17] else []
  let pre := [1, 2] ++ st3 ++ [4, 5, 6]
  if c 0 then ([1], true)
  else if c 1 then ([1, 2], true)
  else if c 2 then ([1, 2] ++ st3 ++ [4], true)
  else if c 3 then (pre, true)
  else if c 4 then (pre ++ [7], true)
  else if c 5 then (pre ++ [7, 8], true)
  else if c 6 then (pre ++ [7, 8, 9], true)
  else if c 7 then (pre ++ [7, 8, 9, 10], true)
  else if c 8 then (pre ++ [7, 8, 9, 10, 11], true)
  else if c 9 then (pre ++ [7, 8, 9, 10, 11, 12], true)
  else if c 10 then (pre ++ [7, 8, 9, 10, 11, 12, 13], true)
  else if c 11 then (pre ++ [7, 8, 9, 10, 11, 12, 13, 14], true)
  else (pre ++ [7, 8, 9, 10, 11, 12, 13, 14, 15, 16] ++ st17, false)

/-- The stages executed up to and including the stage whose boundary hosts
check `n`, read off the source's step sequence (with styles applied). -/
def lsStagesUpToCheck : ℕ → List ℕ
  | 0 => [1]
  | 1 => [1, 2]
  | 2 => [1, 2, 3, 4]
  | 3 => [1, 2, 3, 4, 5, 6]
  | n + 4 => [1, 2, 3, 4, 5, 6] ++ (List.range (n + 1)).map (fun i => 7 + i)

/-- Stage/check model of `SZMGAlgorithm.processAlgorithm`
(`SZMG_algorithm.py` lines 129-227): six stages (clip, slope, threshold,
polygonize, extract, join), with a cancellation check after each of the
first five. -/
def szmgCancelRun (c : ℕ → Bool) : List ℕ × Bool :=
  if c 0 then ([1], true)
  else if c 1 then ([1, 2], true)
  else if c 2 then ([1, 2, 3], true)
  else if c 3 then ([1, 2, 3, 4], true)
  else if c 4 then ([1, 2, 3, 4, 5], true)
  else ([1, 2, 3, 4, 5, 6], false)

/-- Stages `1`..`n+1` of the SZMG pipeline, those executed when check `n`
fires. -/
def szmgStagesUpToCheck (n : ℕ) : List ℕ :=
  (List.range (n + 1)).map (fun i => i + 1)

/-!
Control-flow model of the error policy.  Delegated host operations are
numbered in the order they are attempted; `fail n` says whether the `n`-th
attempted operation raises.  A run records the list of attempted
operations and the outcome: `ok` (the method returned its results) or
`fatal` (a `QgsProcessingException` — possibly wrapping another
exception — escaped to the caller).
-/

/-- Outcome of a pipeline run in the error model. -/
inductive ErrOutcome where
  | ok
  | fatal
deriving DecidableEq

/-- State of the error model: index of the next delegated operation and
the log of operations attempted so far. -/
structure ErrState where
  idx : ℕ
  log : List ℕ
deriving DecidableEq

/-- Attempt one delegated operation: log it and report whether it raised. -/
def attemptOp (fail : ℕ → Bool) (s : ErrState) : ErrState × Bool :=
  (⟨s.idx + 1, s.log ++ [s.idx]⟩, fail s.idx)

/-- Model of `LateralSpreadingAlgorithm._apply_style` (lines 953-996): the
style operation is attempted, and any failure is caught inside the method
and reported as a warning, never propagated. -/
def applyStyleOp (fail : ℕ → Bool) (s : ErrState) : ErrState :=
  (attemptOp fail s).1

/-- Model of `LateralSpreadingAlgorithm._extract_and_process_zone`
(lines 714-846): up to five delegated operations (extract, dissolve, add
code, refactor, add formula) run in sequence; the surrounding
`try/except` catches any failure, pushes a warning and returns `None`, so
a failure aborts only the remaining operations of this zone.  The Bool
says whether the zone produced a layer. -/
def extractZoneOps (fail : ℕ → Bool) (s : ErrState) : ErrState × Bool :=
  let r1 := attemptOp fail s
  if r1.2 then (r1.1, false)
  else
    let r2 := attemptOp fail r1.1
    if r2.2 then (r2.1, false)
    else
      let r3 := attemptOp fail r2.1
      if r3.2 then (r3.1, false)
      else
        let r4 := attemptOp fail r3.1
        if r4.2 then (r4.1, false)
        else
          let r5 := attemptOp fail r4.1
          if r5.2 then (r5.1, false) else (r5.1, true)

/-- The zone loop of `processAlgorithm` in the error model: processes `k`
zones, counting how many produced a layer. -/
def zoneLoopOps (fail : ℕ → Bool) : ℕ → ErrState → ErrState × ℕ
  | 0, s => (s, 0)
  | k + 1, s =>
      let r := extractZoneOps fail s
      let rest := zoneLoopOps fail k r.1
      (rest.1, rest.2 + if r.2 then 1 else 0)

/-- Error-policy model of `LateralSpreadingAlgorithm.processAlgorithm`
(lines 237-429): the pre-zone operations (clip, slope, optional style,
polygonize, intersect, rename), the zone loop, the `No zones were
generated` check, the merge (skipped when exactly one zone layer exists,
per `_merge_zones` lines 876-878), the final refactor and the optional
final style.  Failures of non-style, non-zone operations propagate to
the outer `try/except` (lines 422-427), which wraps them into a single
`QgsProcessingException`: outcome `fatal`, later stages never attempted. -/
def lsErrRun (applyStyles : Bool) (fail : ℕ → Bool) : List ℕ × ErrOutcome :=
  let s0 : ErrState := ⟨0, []⟩
  let r1 := attemptOp fail s0
  if r1.2 then (r1.1.log, .fatal)
  else
    let r2 := attemptOp fail r1.1
    if r2.2 then (r2.1.log, .fatal)
    else
      let s2 := if applyStyles then applyStyleOp fail r2.1 else r2.1
      let r3 := attemptOp fail s2
      if r3.2 then (r3.1.log, .fatal)
      else
        let r4 := attemptOp fail r3.1
        if r4.2 then (r4.1.log, .fatal)
        else
          let r5 := attemptOp fail r4.1
          if r5.2 then (r5.1.log, .fatal)
          else
            let rz := zoneLoopOps fail 8 r5.1
            if rz.2 = 0 then (rz.1.log, .fatal)
            else
              let rm := if rz.2 = 1 then (rz.1, false) else attemptOp fail rz.1
              if rm.2 then (rm.1.log, .fatal)
              else
                let rf := attemptOp fail rm.1
                if rf.2 then (rf.1.log, .fatal)
                else
                  let sf := if applyStyles then applyStyleOp fail rf.1 else rf.1
                  (sf.log, .ok)

/-- Claim C1: over the shipped rule table `ZONE_CRITERIA`, at most one
rule satisfies both the index membership test and the slope membership
test at any pair of inputs, i.e. `classify` returns at most one match per
input. -/
theorem shipped_table_at_most_one_match (index slope : ℚ) :
    (classify ZONE_CRITERIA index slope).length ≤ 1 := by
  simp only [classify]
  apply filter_length_le_one
  simp only [ZONE_CRITERIA, List.pairwise_cons, List.forall_mem_cons, List.forall_mem_nil]
  repeat' apply And.intro
  all_goals first
    | exact trivial
    | exact List.Pairwise.nil
    | exact List.forall_mem_nil _
    | (simp only [zoneMatches, condMatches, Bool.and_eq_true, decide_eq_true_eq, not_and,
        and_imp, not_le, not_lt]
       intros
       linarith)

/-- Claim C2: for every rule table and every pair of inputs, a rule
matches iff both of the spec's interval memberships hold (bound absent or
the strict-lower / inclusive-upper comparison), and the classifier
returns all matching rules in table order: it is the filter of the table
by the match test, a sublist of the table (hence in table order)
containing exactly the rules that match. -/
theorem classify_matches_spec_memberships (rules : List ZoneClassification)
    (index slope : ℚ) :
    (∀ z : ZoneClassification, zoneMatches z index slope = true ↔
        spec_index_membership z index ∧ spec_slope_membership z slope)
    ∧ classify rules index slope = rules.filter (fun z => zoneMatches z index slope)
    ∧ List.Sublist (classify rules index slope) rules
    ∧ (∀ z : ZoneClassification, z ∈ classify rules index slope ↔
        z ∈ rules ∧ zoneMatches z index slope = true) := by
  refine ⟨?_, rfl, ?_, ?_⟩
  · intro z
    rw [zoneMatches, Bool.and_eq_true, condMatches_iff, condMatches_iff]
    exact Iff.rfl
  · exact List.filter_sublist rules
  · intro z
    simp [classify, List.mem_filter]

/-- Claim C3 counterexample: at index 2 and slope 15 the shipped table's
only match is code 201, so the claim that code 101 must match is false. -/
theorem classify_2_15_omits_code_101 :
    ¬ (101 ∈ (classify ZONE_CRITERIA 2 15).map (fun z => z.code)) := by decide

/-- Claim C3 (amended): with the shipped rule table,
`classify(index=2.0, slope=15.0)` matches code 201 and only code 201 —
slope 15 is not strictly greater than 15, so rule 101 does not match,
while 15 lies in rule 201's slope range (5, 15]. -/
theorem classify_2_15_matches_code_201 :
    (classify ZONE_CRITERIA 2 15).map (fun z => z.code) = [201] := by decide

/-- Claim C4: with the shipped rule table, `classify(1.5, 15.0)` matches
rule 201 and no other rule, and `classify(1.5, 15.0001)` matches rule 101
and no other rule. -/
theorem classify_boundary_cases :
    (classify ZONE_CRITERIA (mkRat 3 2) 15).map (fun z => z.code) = [201]
    ∧ (classify ZONE_CRITERIA (mkRat 3 2) (mkRat 150001 10000)).map (fun z => z.code)
        = [101] := by
  exact ⟨by decide, by decide⟩

/-- Claim C5: every shipped rule's index lower bound is present and
non-negative, and an input whose index is 0 matches no rule, whatever the
slope (in particular `classify(0.0, 3.0)` returns no match). -/
theorem index_zero_matches_no_rule :
    (ZONE_CRITERIA.all fun z =>
      match z.il_min with
      | some m => decide (0 ≤ m)
      | none => false) = true
    ∧ (∀ slope : ℚ, classify ZONE_CRITERIA 0 slope = []) := by
  constructor
  · decide
  · intro slope
    norm_num [classify, ZONE_CRITERIA, zoneMatches, condMatches]

/-- Claim C6 counterexample: at index 10^9 with slope 16 (> 15) the
shipped table's only match is rule 104, not rule 101: rule 101's index
upper bound 2 excludes an index of 10^9, refuting the claim's concrete
example. -/
theorem index_1e9_does_not_match_rule_101 :
    (classify ZONE_CRITERIA 1000000000 16).map (fun z => z.code) = [104]
    ∧ ¬ (101 ∈ (classify ZONE_CRITERIA 1000000000 16).map (fun z => z.code)) := by
  exact ⟨by decide, by decide⟩

/-- Claim C6 (amended): a rule with an absent upper bound matches
arbitrarily large values of the unbounded quantity — an input with index
10^9 and slope > 15 matches rule 104 (whose index upper bound is absent),
and an input with index in (0, 2] and slope 10^9 matches rule 101 (whose
slope upper bound is absent); the absent bound is treated as unbounded,
not as zero or as an error. -/
theorem unbounded_upper_bounds_match_large_values :
    (∀ slope : ℚ, 15 < slope →
        (classify ZONE_CRITERIA 1000000000 slope).map (fun z => z.code) = [104])
    ∧ (∀ index : ℚ, 0 < index → index ≤ 2 →
        (classify ZONE_CRITERIA index 1000000000).map (fun z => z.code) = [101]) := by
  constructor
  · intro slope hs
    have h1 : (5:ℚ) < slope := by linarith
    have h2 : (2:ℚ) < slope := by linarith
    have h3 : ¬ slope ≤ 15 := by linarith
    have h4 : ¬ slope ≤ 5 := by linarith
    norm_num [classify, ZONE_CRITERIA, zoneMatches, condMatches, hs, h1, h2, h3, h4]
  · intro index h0 hle
    have h5 : ¬ (2:ℚ) < index := by linarith
    have h6 : ¬ (5:ℚ) < index := by linarith
    have h7 : ¬ (15:ℚ) < index := by linarith
    norm_num [classify, ZONE_CRITERIA, zoneMatches, condMatches, h0, hle, h5, h6, h7]

/-- Witness for the amended claim C6, at slope 16 and index 1. -/
theorem unbounded_upper_bounds_match_large_values_witness :
    (classify ZONE_CRITERIA 1000000000 16).map (fun z => z.code) = [104]
    ∧ (classify ZONE_CRITERIA 1 1000000000).map (fun z => z.code) = [101] :=
  ⟨unbounded_upper_bounds_match_large_values.1 16 (by norm_num),
   unbounded_upper_bounds_match_large_values.2 1 (by norm_num) (by norm_num)⟩

/-- Claim C7 counterexample: at the non-finite slope +infinity (with
index 1), the standard comparison semantics make rule 101's one-sided
test `slope > 15` evaluate true, so the classifier returns a match —
refuting the claim that every interval membership test evaluates false at
non-finite inputs. -/
theorem pos_infinity_slope_still_matches :
    (classifyE ZONE_CRITERIA (.fin 1) .posInf).map (fun z => z.code) = [101]
    ∧ classifyE ZONE_CRITERIA (.fin 1) .posInf ≠ [] := by
  exact ⟨by decide, by decide⟩

/-- Claim C7 (amended): over the shipped table — whose every rule carries
a present strict lower bound on both coordinates — an input whose index
or slope is NaN or -infinity fails every rule's membership under the
standard comparison semantics, so the classifier returns the empty list
of matches, an ordinary (non-error) result; +infinity, by contrast, can
still satisfy a one-sided test whose upper bound is absent. -/
theorem nan_or_neg_infinity_matches_no_rule (v : EVal) :
    classifyE ZONE_CRITERIA .nan v = []
    ∧ classifyE ZONE_CRITERIA v .nan = []
    ∧ classifyE ZONE_CRITERIA .negInf v = []
    ∧ classifyE ZONE_CRITERIA v .negInf = [] := by
  refine ⟨?_, ?_, ?_, ?_⟩ <;>
    simp [classifyE, ZONE_CRITERIA, zoneMatchesE, condMatchesE, elt, ele]

/-- Claim C8: whenever the cooperative cancellation flag is first observed
set at check `n` of a pipeline's stage boundaries, `processAlgorithm`
returns the empty result mapping having executed exactly the stages up to
that boundary and none after — for both the lateral-spreading pipeline
(checks 0-11) and the seismic-microzonation slope pipeline (checks 0-4). -/
theorem cancellation_aborts_pipeline (c : ℕ → Bool) (n : ℕ)
    (hbefore : ∀ m, m < n → c m = false) (hn : c n = true) :
    (n ≤ 11 → lsCancelRun true c = (lsStagesUpToCheck n, true))
    ∧ (n ≤ 4 → szmgCancelRun c = (szmgStagesUpToCheck n, true)) := by
  constructor
  · intro h
    interval_cases n <;> simp_all [lsCancelRun, lsStagesUpToCheck] <;> decide
  · intro h
    interval_cases n <;> simp_all [szmgCancelRun, szmgStagesUpToCheck] <;> decide

/-- Witness for claim C8: a flag that becomes set at check 3. -/
theorem cancellation_aborts_pipeline_witness :
    lsCancelRun true (fun m => decide (3 ≤ m)) = (lsStagesUpToCheck 3, true)
    ∧ szmgCancelRun (fun m => decide (3 ≤ m)) = (szmgStagesUpToCheck 3, true) :=
  ⟨(cancellation_aborts_pipeline (fun m => decide (3 ≤ m)) 3 (by decide) (by decide)).1
      (by norm_num),
   (cancellation_aborts_pipeline (fun m => decide (3 ≤ m)) 3 (by decide) (by decide)).2
      (by norm_num)⟩

/-- Claim C9 counterexample: when delegated operation 6 — the extraction
of the first zone — fails, the failure is caught inside the zone
processing, the pipeline continues through every remaining stage
(operations 7 to 44 are still attempted) and finishes with outcome `ok`,
refuting the claim that every delegated failure becomes a fatal error
aborting the remaining stages. -/
theorem zone_failure_does_not_abort_pipeline :
    (lsErrRun true (fun n => n == 6)).2 = .ok
    ∧ (lsErrRun true (fun n => n == 6)).1 = List.range 45
    ∧ (fun n => n == 6) 6 = true := by
  exact ⟨by decide, by decide, by decide⟩

/-- Claim C9 (amended): every failure raised by a delegated operation
outside the per-zone processing and the style applications — clip,
slope, polygonize, intersect and rename before the zones (first failure
at operation index `n` in {0,1,3,4,5}), and the merge and final field
refactor after them (first failure at `n` = 46 or 47, the operations
following the forty zone operations) — is wrapped into a single
user-facing fatal processing exception that aborts all remaining
pipeline stages, each operation having been attempted exactly once (no
retry); a failure inside a zone's processing is instead caught, reported
as a warning, and the pipeline continues with all remaining stages. -/
theorem nonzone_failure_is_fatal (fail : ℕ → Bool) (n : ℕ)
    (hmem : n = 0 ∨ n = 1 ∨ n = 3 ∨ n = 4 ∨ n = 5 ∨ n = 46 ∨ n = 47)
    (hbefore : ∀ m, m < n → fail m = false) (hn : fail n = true) :
    lsErrRun true fail = (List.range (n + 1), .fatal)
    ∧ (lsErrRun true (fun m => m == 6)).2 = .ok
    ∧ (lsErrRun true (fun m => m == 6)).1 = List.range 45 := by
  refine ⟨?_, by decide, by decide⟩
  rcases hmem with rfl | rfl | rfl | rfl | rfl | rfl | rfl <;>
    simp_all [lsErrRun, attemptOp, applyStyleOp, zoneLoopOps, extractZoneOps] <;> decide

/-- Witness for the amended claim C9: a first delegated failure at
operation 3 (polygonize) and one at operation 46 (the merge). -/
theorem nonzone_failure_is_fatal_witness :
    (lsErrRun true (fun m => decide (3 ≤ m)) = (List.range 4, .fatal)
      ∧ (lsErrRun true (fun m => m == 6)).2 = .ok
      ∧ (lsErrRun true (fun m => m == 6)).1 = List.range 45)
    ∧ (lsErrRun true (fun m => decide (46 ≤ m)) = (List.range 47, .fatal)
      ∧ (lsErrRun true (fun m => m == 6)).2 = .ok
      ∧ (lsErrRun true (fun m => m == 6)).1 = List.range 45) :=
  ⟨nonzone_failure_is_fatal (fun m => decide (3 ≤ m)) 3 (by norm_num)
      (by decide) (by decide),
   nonzone_failure_is_fatal (fun m => decide (46 ≤ m)) 46 (by norm_num)
      (by decide) (by decide)⟩

/-- Claim C10: for a `ZoneClassification` rule in which all four bounds
are absent, `build_extraction_expression` returns the expression `1=1`,
and such a rule matches every feature (no rejection, no error). -/
theorem all_bounds_absent_rule_matches_everything (code : ℤ) (zt : ZoneType)
    (ft : String) :
    build_extraction_expression ⟨code, zt, none, none, none, none, ft⟩ = "1=1"
    ∧ ∀ index slope : ℚ,
        zoneMatches ⟨code, zt, none, none, none, none, ft⟩ index slope = true := by
  constructor
  · rfl
  · intro index slope
    simp [zoneMatches, condMatches]
